import Mathlib

/-!
Verification of the task-run execution engine of the `prefect` repository:
the `Task` model (`src/prefect/tasks.py`), the recursive future-resolution
algorithm (`prefect/futures.py`, pinned by `tests/unit_tests/test_futures.py`),
and the executor contract (pinned by `tests/integration_tests/test_executors.py`).
Python values are shallowly embedded; machine-level details (object identity,
hashing internals) are modelled where noted.
-/

namespace Prefect

/-- Model of a Python object passed as the `fn` argument of `Task.__init__`.
We record exactly the capabilities `tasks.py` consults: whether `callable(fn)`
holds, the `__name__` attribute (absent for e.g. an instance with `__call__`),
the docstring seen by `inspect.getdoc`, whether it is a coroutine function,
the fully-qualified identity used by `to_qualified_name`, and the parameter
names of its signature (used by call binding). -/
structure PyObj where
  isCallable : Bool
  name_attr : Option String
  doc : Option String
  is_coroutine : Bool
  qualname : String
  params : List String
deriving DecidableEq, Repr

/-- Modelled from the spec: `to_qualified_name` (prefect.utilities.hashing,
not under src/) returns the fully-qualified callable identity of `fn`
("fully-qualified callable identity", spec section 3). -/
def to_qualified_name (fn : PyObj) : String :=
  fn.qualname

/-- The content hashed by `stable_hash` in `Task.__init__`:
`(self.name, to_qualified_name(self.fn), str(sorted(self.tags or [])))`.
The Python `str` of a sorted list of strings is an injective serialization,
so we keep the sorted list itself as the third component. -/
structure TaskKey where
  key_name : String
  key_qualname : String
  key_tags_repr : List String
deriving DecidableEq, Repr

/-- Modelled from the spec: `stable_hash` (prefect.utilities.hashing, not
under src/) is a "stable content hash" of its arguments (spec section 3:
"identifies the task definition across runs"); modelled as an injective
function of the hashed content, the spec idealization of a collision-free
content hash. -/
def stable_hash (name : String) (qualname : String) (tags_repr : List String) :
    TaskKey :=
  ⟨name, qualname, tags_repr⟩

/-- Python truthiness of an optional string: `None` and `""` are falsy. -/
def truthy_str : Option String → Bool
  | none => false
  | some s => !s.isEmpty

/-- A Python `set` of strings, represented canonically as the ascending
deduplicated list of its elements (a Python set is unordered and
duplicate-free; the canonical list makes set equality decidable). -/
def py_set (l : List String) : List String :=
  l.dedup.insertionSort (· ≤ ·)

/-- `set(tags if tags else [])` from `Task.__init__` line 68: a falsy `tags`
(`None` or an empty iterable) yields the empty set, otherwise the set of the
iterable's elements. -/
def normalize_tags : Option (List String) → List String
  | none => py_set []
  | some l => if l.isEmpty then py_set [] else py_set l

/-- `sorted(self.tags or [])` from `Task.__init__` line 77: an empty set is
falsy and is replaced by `[]` before sorting. -/
def sorted_or_empty (tags : List String) : List String :=
  (if tags.isEmpty then [] else tags).insertionSort (· ≤ ·)

/-- Errors `Task.__init__` can raise synchronously: the explicit
`TypeError("'fn' must be callable")` of line 58-59, and the `AttributeError`
implicit in reading `fn.__name__` on line 61 when `fn` has no `__name__`. -/
inductive InitError where
  | typeError
  | attributeError
deriving DecidableEq, Repr

/-- The `Task` object as constructed by `Task.__init__` (`tasks.py` 45-88).
`tags` holds the canonical representation of the Python set `self.tags`. -/
structure Task where
  name : String
  description : Option String
  fn : PyObj
  isasync : Bool
  tags : List String
  task_key : TaskKey
  dynamic_key : Nat
  cache_key_fn : Option PyObj
  cache_expiration : Option Int
  retries : Int
  retry_delay_seconds : Int
deriving DecidableEq, Repr

/-- `Task.__init__` (`tasks.py` 45-88), step by step:
reject a non-callable `fn` (58-59); `self.name = name or fn.__name__` (61),
which reads `fn.__name__` only when `name` is falsy and raises
`AttributeError` if it is absent; `self.description = description or
inspect.getdoc(fn)` (63); `update_wrapper(self, fn)` (64) copies wrapper
attributes onto the object and affects none of the modelled fields;
`self.isasync` (66); `self.tags = set(tags if tags else [])` (68);
`self.task_key = stable_hash(self.name, to_qualified_name(self.fn),
str(sorted(self.tags or [])))` (74-78); `self.dynamic_key = 0` (80); the
remaining settings are stored unchanged (81-88). `buildTask` collects the
field assignments performed once `self.name` is known; `mkTask` is the
control flow of `__init__` around them. -/
def buildTask (fn : PyObj) (the_name : String) (description : Option String)
    (tags : Option (List String)) (cache_key_fn : Option PyObj)
    (cache_expiration : Option Int) (retries : Int)
    (retry_delay_seconds : Int) : Task :=
  let the_tags := normalize_tags tags
  { name := the_name
    description := if truthy_str description then description else fn.doc
    fn := fn
    isasync := fn.is_coroutine
    tags := the_tags
    task_key :=
      stable_hash the_name (to_qualified_name fn) (sorted_or_empty the_tags)
    dynamic_key := 0
    cache_key_fn := cache_key_fn
    cache_expiration := cache_expiration
    retries := retries
    retry_delay_seconds := retry_delay_seconds }

def mkTask (fn : PyObj) (name : Option String) (description : Option String)
    (tags : Option (List String)) (cache_key_fn : Option PyObj)
    (cache_expiration : Option Int) (retries : Int)
    (retry_delay_seconds : Int) : Except InitError Task :=
  if fn.isCallable = false then
    .error .typeError
  else if truthy_str name then
    .ok (buildTask fn (name.getD "") description tags cache_key_fn
      cache_expiration retries retry_delay_seconds)
  else
    match fn.name_attr with
    | some n =>
      .ok (buildTask fn n description tags cache_key_fn cache_expiration
        retries retry_delay_seconds)
    | none => .error .attributeError

/-- `Task.update_dynamic_key` (`tasks.py` 122-128): increment the key. -/
def update_dynamic_key (t : Task) : Task :=
  { t with dynamic_key := t.dynamic_key + 1 }

/-! ## Call binding (`Task.__call__`, `tasks.py` 112-120)

`Task.__call__` first converts the call args/kwargs to a parameter dict via
`get_call_parameters(self.fn, args, kwargs)` and only then enters the engine
via `enter_task_run_engine(self, parameters)`. The binder itself
(`prefect.utilities.callables`) is not under src/, so it is modelled from
the spec: "`args`/`kwargs` are bound against the wrapped callable's
signature; binding failure is a usage error raised synchronously". -/

/-- The ways binding call arguments against a signature fails, mirroring
Python `inspect.Signature.bind`. -/
inductive BindError where
  | tooManyArgs
  | unexpectedKeyword (k : String)
  | multipleValues (k : String)
  | missingArg (k : String)
deriving DecidableEq, Repr

/-- Bind the keyword arguments on top of the already positionally-bound
parameters; a keyword must name a declared parameter and must not rebind an
already-bound one. -/
def bind_kwargs (bound : List (String × α)) (params : List String) :
    List (String × α) → Except BindError (List (String × α))
  | [] => .ok bound
  | (k, v) :: rest =>
    if k ∉ params then .error (.unexpectedKeyword k)
    else if k ∈ bound.map Prod.fst then .error (.multipleValues k)
    else bind_kwargs (bound ++ [(k, v)]) params rest

/-- Modelled from the spec: `get_call_parameters`
(prefect.utilities.callables, not under src/) binds `args`/`kwargs` against
the wrapped callable's signature and produces the parameter dict, raising a
usage error synchronously on failure. Positional arguments fill the leading
parameters, keywords fill by name, every parameter must end up bound
exactly once. -/
def get_call_parameters (fn : PyObj) (args : List α)
    (kwargs : List (String × α)) : Except BindError (List (String × α)) :=
  if fn.params.length < args.length then .error .tooManyArgs
  else
    match bind_kwargs (fn.params.zip args) fn.params kwargs with
    | .error e => .error e
    | .ok bound =>
      match fn.params.find? (fun p => !(bound.map Prod.fst).contains p) with
      | some p => .error (.missingArg p)
      | none => .ok bound

/-- An observable effect of entering the run engine: the engine is handed
the task and the bound parameter dict. -/
inductive EngineEvent (α : Type) where
  | enter_task_run (task_key : TaskKey) (parameters : List (String × α))
deriving DecidableEq, Repr

/-- The handle `Task.__call__` hands back to the caller on success. -/
structure FutureHandle where
  run_task_key : TaskKey
deriving DecidableEq, Repr

/-- Modelled from the spec: `enter_task_run_engine` (prefect.engine, not
under src/) performs the engine side effects for one task call and returns
the future for the new run. -/
def enter_task_run_engine (t : Task) (parameters : List (String × α)) :
    EngineEvent α × FutureHandle :=
  (.enter_task_run t.task_key parameters, ⟨t.task_key⟩)

/-- `Task.__call__` (`tasks.py` 112-120): bind the call arguments to a
parameter dict, then enter the engine. The returned trace lists the engine
side effects that occurred; a binding failure propagates before any engine
effect and never produces a future. -/
def task_call (t : Task) (args : List α) (kwargs : List (String × α)) :
    List (EngineEvent α) × Except BindError FutureHandle :=
  match get_call_parameters t.fn args kwargs with
  | .error e => ([], .error e)
  | .ok parameters =>
    let r := enter_task_run_engine t parameters
    ([r.1], .ok r.2)

/-! ## States, futures and the resolver

`prefect/futures.py` and the `State` schema are not under src/; only their
tests are (`tests/unit_tests/test_futures.py`). The resolver is modelled
from the spec (section 4.2) and pinned by those tests. -/

/-- `StateType` of the run-state schema (spec section 3): the outcome tag
of a run. -/
inductive StateType where
  | scheduled
  | pending
  | running
  | completed
  | failed
  | cached
  | crashed
deriving DecidableEq, Repr

/-- Terminal states whose `data` is an unwrappable payload: Completed and
Cached. Failed and Crashed carry a captured error that propagates instead
(spec section 4.2). -/
def state_unwrap_ok : StateType → Bool
  | .completed => true
  | .cached => true
  | _ => false

/-- An error propagated out of resolution: the terminal error state that
was encountered. -/
structure ResolveErr where
  err_state : StateType
deriving DecidableEq, Repr

mutual
/-- Modelled from the spec: the universe of nested structures
`resolve_futures` walks (spec sections 4.2 and 9): opaque scalars, Futures,
States, sequences (list/tuple), sets, mappings, and records with named
fields (dataclasses in the tests). A `future st p` is a `PrefectFuture`
whose (blocking) resolution yields a terminal state of type `st` carrying
payload `p`; a `state st d` is a `State` literal appearing in the
structure. A `pyset` is kept as the list of its distinct elements. -/
inductive PyVal where
  | scalar (s : String)
  | intScalar (n : Int)
  | future (st : StateType) (payload : PyVal)
  | state (st : StateType) (data : PyVal)
  | pylist (xs : PyVals)
  | pytuple (xs : PyVals)
  | pyset (xs : PyVals)
  | pydict (entries : PyPairs)
  | record (rname : String) (fields : PyFields)

/-- Elements of a sequence or set. -/
inductive PyVals where
  | nil
  | cons (v : PyVal) (vs : PyVals)

/-- Key/value entries of a mapping, in insertion order. -/
inductive PyPairs where
  | nil
  | cons (k : PyVal) (v : PyVal) (rest : PyPairs)

/-- Named fields of a record. -/
inductive PyFields where
  | nil
  | cons (fname : String) (v : PyVal) (rest : PyFields)
end

mutual
/-- Modelled from the spec: `resolve_futures` (prefect/futures.py, not
under src/, pinned by tests/unit_tests/test_futures.py): a pure recursive
depth-first transform. A Future is resolved and the resolver recurses into
the resolved payload; a State is unwrapped with the same terminal-state
semantics (error states propagate); sequences, sets, mappings and records
are rebuilt with the same container kind with every element (both keys and
values for mappings) passed through the resolver; opaque scalars are
returned unchanged. -/
def resolve_futures : PyVal → Except ResolveErr PyVal
  | .scalar s => .ok (.scalar s)
  | .intScalar n => .ok (.intScalar n)
  | .future st p =>
    if state_unwrap_ok st then resolve_futures p else .error ⟨st⟩
  | .state st d =>
    if state_unwrap_ok st then resolve_futures d else .error ⟨st⟩
  | .pylist xs =>
    match resolve_vals xs with
    | .error e => .error e
    | .ok ys => .ok (.pylist ys)
  | .pytuple xs =>
    match resolve_vals xs with
    | .error e => .error e
    | .ok ys => .ok (.pytuple ys)
  | .pyset xs =>
    match resolve_vals xs with
    | .error e => .error e
    | .ok ys => .ok (.pyset ys)
  | .pydict entries =>
    match resolve_pairs entries with
    | .error e => .error e
    | .ok es => .ok (.pydict es)
  | .record rname fields =>
    match resolve_fields fields with
    | .error e => .error e
    | .ok fs => .ok (.record rname fs)

/-- Resolve every element of a sequence or set, left to right. -/
def resolve_vals : PyVals → Except ResolveErr PyVals
  | .nil => .ok .nil
  | .cons v vs =>
    match resolve_futures v with
    | .error e => .error e
    | .ok v2 =>
      match resolve_vals vs with
      | .error e => .error e
      | .ok vs2 => .ok (.cons v2 vs2)

/-- Resolve both the key and the value of every mapping entry, in order. -/
def resolve_pairs : PyPairs → Except ResolveErr PyPairs
  | .nil => .ok .nil
  | .cons k v rest =>
    match resolve_futures k with
    | .error e => .error e
    | .ok k2 =>
      match resolve_futures v with
      | .error e => .error e
      | .ok v2 =>
        match resolve_pairs rest with
        | .error e => .error e
        | .ok rest2 => .ok (.cons k2 v2 rest2)

/-- Resolve every field value of a record, keeping field names. -/
def resolve_fields : PyFields → Except ResolveErr PyFields
  | .nil => .ok .nil
  | .cons fname v rest =>
    match resolve_futures v with
    | .error e => .error e
    | .ok v2 =>
      match resolve_fields rest with
      | .error e => .error e
      | .ok rest2 => .ok (.cons fname v2 rest2)
end

mutual
/-- A structure containing no Future and no State anywhere. -/
def future_free : PyVal → Bool
  | .scalar _ => true
  | .intScalar _ => true
  | .future _ _ => false
  | .state _ _ => false
  | .pylist xs => future_free_vals xs
  | .pytuple xs => future_free_vals xs
  | .pyset xs => future_free_vals xs
  | .pydict entries => future_free_pairs entries
  | .record _ fields => future_free_fields fields

/-- No Future/State among the elements. -/
def future_free_vals : PyVals → Bool
  | .nil => true
  | .cons v vs => future_free v && future_free_vals vs

/-- No Future/State among the keys and values. -/
def future_free_pairs : PyPairs → Bool
  | .nil => true
  | .cons k v rest => future_free k && (future_free v && future_free_pairs rest)

/-- No Future/State among the field values. -/
def future_free_fields : PyFields → Bool
  | .nil => true
  | .cons _ v rest => future_free v && future_free_fields rest
end

/-- Number of elements of a sequence or set. -/
def PyVals.length : PyVals → Nat
  | .nil => 0
  | .cons _ vs => 1 + vs.length

/-- Number of entries of a mapping. -/
def PyPairs.length : PyPairs → Nat
  | .nil => 0
  | .cons _ _ rest => 1 + rest.length

/-- The entry of a mapping at a given position. -/
def PyPairs.entry : PyPairs → Nat → Option (PyVal × PyVal)
  | .nil, _ => none
  | .cons k v _, 0 => some (k, v)
  | .cons _ _ rest, n + 1 => rest.entry n

/-- The field names of a record, in order. -/
def PyFields.names : PyFields → List String
  | .nil => []
  | .cons fname _ rest => fname :: rest.names

/-! ## Executors

`prefect/executors.py` is not under src/; only the integration test is
(`tests/integration_tests/test_executors.py`). The variants are modelled
from the spec (section 4.3). -/

/-- Modelled from the spec: the Executor variants (prefect/executors.py,
not under src/): `SynchronousExecutor`, `LocalPoolExecutor` with
thread-based (`processes=False`) or process-based (`processes=True`)
workers, and the distributed `DaskExecutor`. -/
inductive Executor where
  | synchronous
  | localPool (processes : Bool)
  | dask
deriving DecidableEq, Repr

/-- The terminal state a run closure produced, exposed through the future
returned by `submit`. -/
structure RunResult (α : Type) where
  stype : StateType
  data : α
deriving DecidableEq, Repr

/-- The future an Executor's `submit` returns: the synchronous variant has
already run the closure when `submit` returns, the pooled and distributed
variants hand back a handle whose resolution performs the wait. -/
inductive ExecFuture (α : Type) where
  | resolvedNow (r : RunResult α)
  | deferred (run : Unit → RunResult α)

/-- Modelled from the spec: `submit(runClosure)` for each variant. The
synchronous executor executes the closure immediately on the caller's
thread; the pooled and distributed executors return immediately and the
run completes by the time the future is waited on. A run closure that
returns normally yields a Completed state carrying the return value. -/
def Executor.submit : Executor → (Unit → α) → ExecFuture α
  | .synchronous, run => .resolvedNow ⟨.completed, run ()⟩
  | .localPool _, run => .deferred (fun u => ⟨.completed, run u⟩)
  | .dask, run => .deferred (fun u => ⟨.completed, run u⟩)

/-- Wait for the future's terminal state (the single suspension point of
the model). -/
def ExecFuture.wait : ExecFuture α → RunResult α
  | .resolvedNow r => r
  | .deferred run => run ()

/-- `task_a` of the integration test: returns "a". -/
def task_a_fn : Unit → String := fun _ => "a"

/-- `task_b` of the integration test: returns "b". -/
def task_b_fn : Unit → String := fun _ => "b"

/-- `task_c` of the integration test: returns its argument plus "c". -/
def task_c_fn (b : String) : String := b ++ "c"

/-- The flow of `test_flow_run_by_executor`: submit `task_a` and `task_b`,
then `task_c` with `task_b`'s future as argument (the engine resolves the
upstream future before the body runs), and collect the three results. -/
def test_flow (ex : Executor) : RunResult String × RunResult String × RunResult String :=
  let a := ex.submit task_a_fn
  let b := ex.submit task_b_fn
  let c := ex.submit (fun _ => task_c_fn (b.wait).data)
  (a.wait, b.wait, c.wait)

deriving instance DecidableEq for PyVal

/-! ## Lemmas about tag normalization -/

theorem py_set_sorted (l : List String) : (py_set l).Sorted (· ≤ ·) :=
  List.sorted_insertionSort _ _

theorem py_set_nodup (l : List String) : (py_set l).Nodup :=
  (List.Perm.nodup_iff (List.perm_insertionSort _ _)).2 (List.nodup_dedup l)

theorem py_set_mem {x : String} {l : List String} : x ∈ py_set l ↔ x ∈ l := by
  unfold py_set
  rw [List.mem_insertionSort, List.mem_dedup]

/-- Two iterables with the same elements give the same Python set. -/
theorem py_set_eq_of_mem_iff {l1 l2 : List String}
    (h : ∀ x, x ∈ l1 ↔ x ∈ l2) : py_set l1 = py_set l2 := by
  refine List.eq_of_perm_of_sorted ?_ (py_set_sorted l1) (py_set_sorted l2)
  refine (List.perm_ext_iff_of_nodup (py_set_nodup l1) (py_set_nodup l2)).2 ?_
  intro a
  rw [py_set_mem, py_set_mem]
  exact h a

/-- The canonical set is unchanged by re-sorting for the task key. -/
theorem sorted_or_empty_py_set (l : List String) :
    sorted_or_empty (py_set l) = py_set l := by
  unfold sorted_or_empty
  by_cases he : (py_set l).isEmpty
  · rw [List.isEmpty_iff] at he
    simp [he]
  · simp only [he, if_neg, Bool.false_eq_true, not_false_iff, if_false]
    exact (py_set_sorted l).insertionSort_eq

theorem normalize_tags_eq_py_set :
    ∀ tg : Option (List String), normalize_tags tg = py_set (tg.getD [])
  | none => rfl
  | some l => by
    unfold normalize_tags
    by_cases he : l.isEmpty
    · rw [List.isEmpty_iff] at he
      simp [he]
    · simp [he]

theorem normalize_tags_mem {x : String} {tg : Option (List String)} :
    x ∈ normalize_tags tg ↔ x ∈ tg.getD [] := by
  rw [normalize_tags_eq_py_set, py_set_mem]

theorem sorted_or_empty_normalize (tg : Option (List String)) :
    sorted_or_empty (normalize_tags tg) = normalize_tags tg := by
  rw [normalize_tags_eq_py_set, sorted_or_empty_py_set]

/-! ## Characterization of `mkTask` -/

/-- The fields a successful `Task.__init__` establishes. -/
theorem mkTask_ok_fields {fn : PyObj} {nm d : Option String}
    {tg : Option (List String)} {ckf : Option PyObj} {ce : Option Int}
    {r rd : Int} {t : Task}
    (h : mkTask fn nm d tg ckf ce r rd = .ok t) :
    fn.isCallable = true ∧
    t.fn = fn ∧
    t.tags = normalize_tags tg ∧
    t.dynamic_key = 0 ∧
    t.task_key = stable_hash t.name (to_qualified_name fn) (normalize_tags tg) ∧
    (truthy_str nm = true → t.name = nm.getD "") ∧
    (truthy_str nm = false → fn.name_attr = some t.name) := by
  unfold mkTask at h
  split at h
  · exact absurd h (by simp)
  · rename_i hcall
    rw [Bool.not_eq_false] at hcall
    split at h
    · rename_i htruthy
      rw [Except.ok.injEq] at h
      subst h
      refine ⟨hcall, rfl, rfl, rfl, by
        simp [buildTask, sorted_or_empty_normalize], fun _ => rfl, ?_⟩
      intro hfalsy
      rw [htruthy] at hfalsy
      exact absurd hfalsy (by simp)
    · rename_i hfalsy
      rw [Bool.not_eq_true] at hfalsy
      cases hattr : fn.name_attr with
      | none => rw [hattr] at h; exact absurd h (by simp)
      | some n =>
        rw [hattr] at h
        rw [Except.ok.injEq] at h
        subst h
        refine ⟨hcall, rfl, rfl, rfl, by
          simp [buildTask, sorted_or_empty_normalize], ?_,
          fun _ => by simp [buildTask]⟩
        intro htruthy
        rw [htruthy] at hfalsy
        exact absurd hfalsy (by simp)

/-- With a callable `fn` and a truthy explicit name, construction succeeds
and uses the explicit name. -/
theorem mkTask_ok_of_truthy_name {fn : PyObj} {nm : Option String}
    (d : Option String) (tg : Option (List String)) (ckf : Option PyObj)
    (ce : Option Int) (r rd : Int)
    (hcall : fn.isCallable = true) (hnm : truthy_str nm = true) :
    ∃ t : Task, mkTask fn nm d tg ckf ce r rd = .ok t ∧ t.name = nm.getD "" := by
  refine ⟨buildTask fn (nm.getD "") d tg ckf ce r rd, ?_, rfl⟩
  unfold mkTask
  rw [if_neg (by simp [hcall]), if_pos hnm]

/-- With a callable `fn`, a falsy name and a present `__name__` attribute,
construction succeeds and defaults the name to `fn.__name__`. -/
theorem mkTask_ok_of_name_attr {fn : PyObj} {nm : Option String} {n : String}
    (d : Option String) (tg : Option (List String)) (ckf : Option PyObj)
    (ce : Option Int) (r rd : Int)
    (hcall : fn.isCallable = true) (hnm : truthy_str nm = false)
    (hattr : fn.name_attr = some n) :
    ∃ t : Task, mkTask fn nm d tg ckf ce r rd = .ok t ∧ t.name = n := by
  refine ⟨buildTask fn n d tg ckf ce r rd, ?_, rfl⟩
  unfold mkTask
  rw [if_neg (by simp [hcall]), if_neg (by simp [hnm]), hattr]

/-- With a callable `fn`, a falsy name and no `__name__` attribute,
construction raises `AttributeError`. -/
theorem mkTask_attr_error {fn : PyObj} {nm : Option String}
    (d : Option String) (tg : Option (List String)) (ckf : Option PyObj)
    (ce : Option Int) (r rd : Int)
    (hcall : fn.isCallable = true) (hnm : truthy_str nm = false)
    (hattr : fn.name_attr = none) :
    mkTask fn nm d tg ckf ce r rd = .error .attributeError := by
  unfold mkTask
  rw [if_neg (by simp [hcall]), if_neg (by simp [hnm]), hattr]

/-! ## Lemmas about the resolver -/

mutual
/-- A structure with no Futures/States resolves to itself unchanged. -/
theorem resolve_of_future_free :
    ∀ v : PyVal, future_free v = true → resolve_futures v = .ok v
  | .scalar _, _ => rfl
  | .intScalar _, _ => rfl
  | .future _ _, h => by simp [future_free] at h
  | .state _ _, h => by simp [future_free] at h
  | .pylist xs, h => by
    rw [future_free] at h
    simp [resolve_futures, resolve_vals_of_future_free xs h]
  | .pytuple xs, h => by
    rw [future_free] at h
    simp [resolve_futures, resolve_vals_of_future_free xs h]
  | .pyset xs, h => by
    rw [future_free] at h
    simp [resolve_futures, resolve_vals_of_future_free xs h]
  | .pydict entries, h => by
    rw [future_free] at h
    simp [resolve_futures, resolve_pairs_of_future_free entries h]
  | .record rname fields, h => by
    rw [future_free] at h
    simp [resolve_futures, resolve_fields_of_future_free fields h]

theorem resolve_vals_of_future_free :
    ∀ xs : PyVals, future_free_vals xs = true → resolve_vals xs = .ok xs
  | .nil, _ => rfl
  | .cons v vs, h => by
    rw [future_free_vals, Bool.and_eq_true] at h
    simp [resolve_vals, resolve_of_future_free v h.1,
      resolve_vals_of_future_free vs h.2]

theorem resolve_pairs_of_future_free :
    ∀ es : PyPairs, future_free_pairs es = true → resolve_pairs es = .ok es
  | .nil, _ => rfl
  | .cons k v rest, h => by
    rw [future_free_pairs, Bool.and_eq_true, Bool.and_eq_true] at h
    simp [resolve_pairs, resolve_of_future_free k h.1,
      resolve_of_future_free v h.2.1, resolve_pairs_of_future_free rest h.2.2]

theorem resolve_fields_of_future_free :
    ∀ fs : PyFields, future_free_fields fs = true → resolve_fields fs = .ok fs
  | .nil, _ => rfl
  | .cons fname v rest, h => by
    rw [future_free_fields, Bool.and_eq_true] at h
    simp [resolve_fields, resolve_of_future_free v h.1,
      resolve_fields_of_future_free rest h.2]
end

mutual
/-- A successful resolution leaves no Future/State in the result. -/
theorem future_free_of_resolve :
    ∀ v r : PyVal, resolve_futures v = .ok r → future_free r = true
  | .scalar _, r, h => by
    rw [resolve_futures, Except.ok.injEq] at h
    subst h; rfl
  | .intScalar _, r, h => by
    rw [resolve_futures, Except.ok.injEq] at h
    subst h; rfl
  | .future st p, r, h => by
    rw [resolve_futures] at h
    split at h
    · exact future_free_of_resolve p r h
    · exact absurd h (by simp)
  | .state st d, r, h => by
    rw [resolve_futures] at h
    split at h
    · exact future_free_of_resolve d r h
    · exact absurd h (by simp)
  | .pylist xs, r, h => by
    rw [resolve_futures] at h
    split at h
    · exact absurd h (by simp)
    · rename_i ys heq
      rw [Except.ok.injEq] at h
      subst h
      rw [future_free]
      exact future_free_vals_of_resolve xs ys heq
  | .pytuple xs, r, h => by
    rw [resolve_futures] at h
    split at h
    · exact absurd h (by simp)
    · rename_i ys heq
      rw [Except.ok.injEq] at h
      subst h
      rw [future_free]
      exact future_free_vals_of_resolve xs ys heq
  | .pyset xs, r, h => by
    rw [resolve_futures] at h
    split at h
    · exact absurd h (by simp)
    · rename_i ys heq
      rw [Except.ok.injEq] at h
      subst h
      rw [future_free]
      exact future_free_vals_of_resolve xs ys heq
  | .pydict entries, r, h => by
    rw [resolve_futures] at h
    split at h
    · exact absurd h (by simp)
    · rename_i es heq
      rw [Except.ok.injEq] at h
      subst h
      rw [future_free]
      exact future_free_pairs_of_resolve entries es heq
  | .record rname fields, r, h => by
    rw [resolve_futures] at h
    split at h
    · exact absurd h (by simp)
    · rename_i fs heq
      rw [Except.ok.injEq] at h
      subst h
      rw [future_free]
      exact future_free_fields_of_resolve fields fs heq

theorem future_free_vals_of_resolve :
    ∀ xs ys : PyVals, resolve_vals xs = .ok ys → future_free_vals ys = true
  | .nil, ys, h => by
    rw [resolve_vals, Except.ok.injEq] at h
    subst h; rfl
  | .cons v vs, ys, h => by
    rw [resolve_vals] at h
    split at h
    · exact absurd h (by simp)
    · rename_i v2 hv
      split at h
      · exact absurd h (by simp)
      · rename_i vs2 hvs
        rw [Except.ok.injEq] at h
        subst h
        rw [future_free_vals, Bool.and_eq_true]
        exact ⟨future_free_of_resolve v v2 hv,
          future_free_vals_of_resolve vs vs2 hvs⟩

theorem future_free_pairs_of_resolve :
    ∀ es fs : PyPairs, resolve_pairs es = .ok fs → future_free_pairs fs = true
  | .nil, fs, h => by
    rw [resolve_pairs, Except.ok.injEq] at h
    subst h; rfl
  | .cons k v rest, fs, h => by
    rw [resolve_pairs] at h
    split at h
    · exact absurd h (by simp)
    · rename_i k2 hk
      split at h
      · exact absurd h (by simp)
      · rename_i v2 hv
        split at h
        · exact absurd h (by simp)
        · rename_i rest2 hrest
          rw [Except.ok.injEq] at h
          subst h
          rw [future_free_pairs, Bool.and_eq_true, Bool.and_eq_true]
          exact ⟨future_free_of_resolve k k2 hk,
            future_free_of_resolve v v2 hv,
            future_free_pairs_of_resolve rest rest2 hrest⟩

theorem future_free_fields_of_resolve :
    ∀ fs gs : PyFields, resolve_fields fs = .ok gs → future_free_fields gs = true
  | .nil, gs, h => by
    rw [resolve_fields, Except.ok.injEq] at h
    subst h; rfl
  | .cons fname v rest, gs, h => by
    rw [resolve_fields] at h
    split at h
    · exact absurd h (by simp)
    · rename_i v2 hv
      split at h
      · exact absurd h (by simp)
      · rename_i rest2 hrest
        rw [Except.ok.injEq] at h
        subst h
        rw [future_free_fields, Bool.and_eq_true]
        exact ⟨future_free_of_resolve v v2 hv,
          future_free_fields_of_resolve rest rest2 hrest⟩
end

/-- Element-wise resolution preserves the number of elements. -/
theorem resolve_vals_length :
    ∀ xs ys : PyVals, resolve_vals xs = .ok ys → ys.length = xs.length
  | .nil, ys, h => by
    rw [resolve_vals, Except.ok.injEq] at h
    subst h; rfl
  | .cons v vs, ys, h => by
    rw [resolve_vals] at h
    split at h
    · exact absurd h (by simp)
    · rename_i v2 hv
      split at h
      · exact absurd h (by simp)
      · rename_i vs2 hvs
        rw [Except.ok.injEq] at h
        subst h
        rw [PyVals.length, PyVals.length, resolve_vals_length vs vs2 hvs]

/-- Entry-wise resolution preserves the number of mapping entries. -/
theorem resolve_pairs_length :
    ∀ es fs : PyPairs, resolve_pairs es = .ok fs → fs.length = es.length
  | .nil, fs, h => by
    rw [resolve_pairs, Except.ok.injEq] at h
    subst h; rfl
  | .cons k v rest, fs, h => by
    rw [resolve_pairs] at h
    split at h
    · exact absurd h (by simp)
    · rename_i k2 hk
      split at h
      · exact absurd h (by simp)
      · rename_i v2 hv
        split at h
        · exact absurd h (by simp)
        · rename_i rest2 hrest
          rw [Except.ok.injEq] at h
          subst h
          rw [PyPairs.length, PyPairs.length,
            resolve_pairs_length rest rest2 hrest]

/-- Each mapping entry of the result is the entry-wise resolution of the
input entry at the same position: the key resolves to the new key and the
value to the new value. -/
theorem resolve_pairs_entry :
    ∀ es fs : PyPairs, resolve_pairs es = .ok fs →
      ∀ i k v, es.entry i = some (k, v) →
        ∃ k2 v2, resolve_futures k = .ok k2 ∧ resolve_futures v = .ok v2 ∧
          fs.entry i = some (k2, v2)
  | .nil, fs, h => by
    intro i k v hkv
    rw [PyPairs.entry] at hkv
    exact absurd hkv (by simp)
  | .cons k0 v0 rest, fs, h => by
    rw [resolve_pairs] at h
    split at h
    · exact absurd h (by simp)
    · rename_i k2 hk
      split at h
      · exact absurd h (by simp)
      · rename_i v2 hv
        split at h
        · exact absurd h (by simp)
        · rename_i rest2 hrest
          rw [Except.ok.injEq] at h
          subst h
          intro i k v hkv
          match i with
          | 0 =>
            rw [PyPairs.entry, Option.some.injEq, Prod.mk.injEq] at hkv
            rw [← hkv.1, ← hkv.2]
            exact ⟨k2, v2, hk, hv, rfl⟩
          | n + 1 =>
            rw [PyPairs.entry] at hkv
            exact resolve_pairs_entry rest rest2 hrest n k v hkv

/-- Field-wise resolution preserves the record's field names. -/
theorem resolve_fields_names :
    ∀ fs gs : PyFields, resolve_fields fs = .ok gs → gs.names = fs.names
  | .nil, gs, h => by
    rw [resolve_fields, Except.ok.injEq] at h
    subst h; rfl
  | .cons fname v rest, gs, h => by
    rw [resolve_fields] at h
    split at h
    · exact absurd h (by simp)
    · rename_i v2 hv
      split at h
      · exact absurd h (by simp)
      · rename_i rest2 hrest
        rw [Except.ok.injEq] at h
        subst h
        rw [PyFields.names, PyFields.names,
          resolve_fields_names rest rest2 hrest]

/-! ## Concrete sample objects used by witnesses and counterexamples -/

/-- A concrete callable with a `__name__`, as produced by `def my_fn(): ...`
at module scope. -/
def sample_fn : PyObj :=
  { isCallable := true
    name_attr := some "my_fn"
    doc := none
    is_coroutine := false
    qualname := "tests.my_fn"
    params := [] }

/-- A concrete one-parameter callable, like `task_c(b)` of the tests. -/
def sample_fn_b : PyObj :=
  { isCallable := true
    name_attr := some "task_c"
    doc := none
    is_coroutine := false
    qualname := "tests.task_c"
    params := ["b"] }

/-- A non-callable value, such as the integer 5 passed as `fn`. -/
def non_callable_obj : PyObj :=
  { isCallable := false
    name_attr := none
    doc := none
    is_coroutine := false
    qualname := "builtins.int"
    params := [] }

/-- A callable class instance: `callable` holds but there is no `__name__`
attribute. -/
def callable_instance : PyObj :=
  { isCallable := true
    name_attr := none
    doc := none
    is_coroutine := false
    qualname := "tests.MyCallable"
    params := [] }

/-- A concrete Task value for call-binding witnesses. -/
def sample_task : Task :=
  buildTask sample_fn_b "task_c" none none none none 0 0

/-- A future that resolves to the string "bar", as in the nested-collection
test. -/
def fut_bar : PyVal := .future .completed (.scalar "bar")

/-- The nested input `[[future], mapping "k" to [future]]` of the
composability test. -/
def c1_nested_input : PyVal :=
  .pylist (.cons (.pylist (.cons fut_bar .nil))
    (.cons (.pydict (.cons (.scalar "k") (.pylist (.cons fut_bar .nil)) .nil))
      .nil))

/-- The expected output `[["bar"], mapping "k" to ["bar"]]`. -/
def c1_nested_output : PyVal :=
  .pylist (.cons (.pylist (.cons (.scalar "bar") .nil))
    (.cons (.pydict (.cons (.scalar "k")
      (.pylist (.cons (.scalar "bar") .nil)) .nil)) .nil))

/-- The mapping input of the dict test: `a` maps to 1, a future key
resolving to "foo" maps to a future value resolving to "bar", `b` maps
to 2. -/
def c5_dict_input : PyVal :=
  .pydict (.cons (.scalar "a") (.intScalar 1)
    (.cons (.future .completed (.scalar "foo")) fut_bar
      (.cons (.scalar "b") (.intScalar 2) .nil)))

/-- The expected mapping output: `a` maps to 1, "foo" maps to "bar", `b`
maps to 2. -/
def c5_dict_output : PyVal :=
  .pydict (.cons (.scalar "a") (.intScalar 1)
    (.cons (.scalar "foo") (.scalar "bar")
      (.cons (.scalar "b") (.intScalar 2) .nil)))

/-! ## The claims -/

/-- C1: for every nested structure built from the documented container
kinds containing zero or more Futures/States, `resolve_futures` returns a
structure of the same shape and concrete container type with every
Future/State replaced by its unwrapped payload, recursively; applied to a
structure with no Futures it returns an equal structure unchanged, and
`resolve_futures([[future], mapping k to [future]])` where the future
resolves to "bar" yields `[["bar"], mapping k to ["bar"]]`. -/
theorem c1_resolve_futures_structure :
    (∀ v : PyVal, future_free v = true → resolve_futures v = .ok v) ∧
    (∀ v r : PyVal, resolve_futures v = .ok r → future_free r = true) ∧
    (∀ (xs : PyVals) (r : PyVal), resolve_futures (.pylist xs) = .ok r →
      ∃ ys : PyVals, r = .pylist ys ∧ ys.length = xs.length) ∧
    (∀ (xs : PyVals) (r : PyVal), resolve_futures (.pytuple xs) = .ok r →
      ∃ ys : PyVals, r = .pytuple ys ∧ ys.length = xs.length) ∧
    (∀ (xs : PyVals) (r : PyVal), resolve_futures (.pyset xs) = .ok r →
      ∃ ys : PyVals, r = .pyset ys ∧ ys.length = xs.length) ∧
    (∀ (es : PyPairs) (r : PyVal), resolve_futures (.pydict es) = .ok r →
      ∃ fs : PyPairs, r = .pydict fs ∧ fs.length = es.length) ∧
    (∀ (rname : String) (fields : PyFields) (r : PyVal),
      resolve_futures (.record rname fields) = .ok r →
      ∃ gs : PyFields, r = .record rname gs ∧ gs.names = fields.names) ∧
    resolve_futures c1_nested_input = .ok c1_nested_output := by
  refine ⟨resolve_of_future_free, future_free_of_resolve, ?_, ?_, ?_, ?_, ?_, rfl⟩
  · intro xs r h
    rw [resolve_futures] at h
    split at h
    · exact absurd h (by simp)
    · rename_i ys heq
      rw [Except.ok.injEq] at h
      exact ⟨ys, h.symm, resolve_vals_length xs ys heq⟩
  · intro xs r h
    rw [resolve_futures] at h
    split at h
    · exact absurd h (by simp)
    · rename_i ys heq
      rw [Except.ok.injEq] at h
      exact ⟨ys, h.symm, resolve_vals_length xs ys heq⟩
  · intro xs r h
    rw [resolve_futures] at h
    split at h
    · exact absurd h (by simp)
    · rename_i ys heq
      rw [Except.ok.injEq] at h
      exact ⟨ys, h.symm, resolve_vals_length xs ys heq⟩
  · intro es r h
    rw [resolve_futures] at h
    split at h
    · exact absurd h (by simp)
    · rename_i fs heq
      rw [Except.ok.injEq] at h
      exact ⟨fs, h.symm, resolve_pairs_length es fs heq⟩
  · intro rname fields r h
    rw [resolve_futures] at h
    split at h
    · exact absurd h (by simp)
    · rename_i gs heq
      rw [Except.ok.injEq] at h
      exact ⟨gs, h.symm, resolve_fields_names fields gs heq⟩

/-- C1 witness: the future-free structure `("a", 7)` resolves to itself. -/
theorem c1_witness :
    resolve_futures (.pytuple (.cons (.scalar "a")
        (.cons (.intScalar 7) .nil))) =
      .ok (.pytuple (.cons (.scalar "a") (.cons (.intScalar 7) .nil))) :=
  c1_resolve_futures_structure.1 _ (by decide)

/-- C5: for every mapping passed to `resolve_futures`, the result is a
mapping of the same kind in which both keys and values have been passed
through `resolve_futures`; a Future used as a key is resolved before being
used as the new key, and all non-Future entries retain their positions and
values. -/
theorem c5_resolve_futures_mapping :
    (∀ (es : PyPairs) (r : PyVal), resolve_futures (.pydict es) = .ok r →
      ∃ fs : PyPairs, r = .pydict fs ∧ fs.length = es.length ∧
        (∀ i k v, es.entry i = some (k, v) →
          ∃ k2 v2, resolve_futures k = .ok k2 ∧ resolve_futures v = .ok v2 ∧
            fs.entry i = some (k2, v2)) ∧
        (∀ i k v, es.entry i = some (k, v) → future_free k = true →
          future_free v = true → fs.entry i = some (k, v))) ∧
    resolve_futures c5_dict_input = .ok c5_dict_output := by
  refine ⟨?_, rfl⟩
  intro es r h
  rw [resolve_futures] at h
  split at h
  · exact absurd h (by simp)
  · rename_i fs heq
    rw [Except.ok.injEq] at h
    refine ⟨fs, h.symm, resolve_pairs_length es fs heq,
      resolve_pairs_entry es fs heq, ?_⟩
    intro i k v hkv hffk hffv
    obtain ⟨k2, v2, hk, hv, hout⟩ := resolve_pairs_entry es fs heq i k v hkv
    rw [resolve_of_future_free k hffk, Except.ok.injEq] at hk
    rw [resolve_of_future_free v hffv, Except.ok.injEq] at hv
    rw [hout, hk, hv]

/-- C5 witness: the dict test input applied through the general statement;
the future key entry at position 1 is resolved to the key "foo" with value
"bar". -/
theorem c5_witness :
    ∃ fs : PyPairs, (c5_dict_output : PyVal) = .pydict fs ∧
      fs.length = PyPairs.length (.cons (.scalar "a") (.intScalar 1)
        (.cons (.future .completed (.scalar "foo")) fut_bar
          (.cons (.scalar "b") (.intScalar 2) .nil))) ∧
      (∀ i k v, PyPairs.entry (.cons (.scalar "a") (.intScalar 1)
          (.cons (.future .completed (.scalar "foo")) fut_bar
            (.cons (.scalar "b") (.intScalar 2) .nil))) i = some (k, v) →
        ∃ k2 v2, resolve_futures k = .ok k2 ∧ resolve_futures v = .ok v2 ∧
          fs.entry i = some (k2, v2)) ∧
      (∀ i k v, PyPairs.entry (.cons (.scalar "a") (.intScalar 1)
          (.cons (.future .completed (.scalar "foo")) fut_bar
            (.cons (.scalar "b") (.intScalar 2) .nil))) i = some (k, v) →
        future_free k = true → future_free v = true →
        fs.entry i = some (k, v)) :=
  c5_resolve_futures_mapping.1 _ c5_dict_output rfl

/-- C6: the three-task flow of the integration test produces the identical
completed results ("a", "b", "bc") under each Executor variant
(synchronous, pooled-thread, pooled-process, distributed); the Executor
choice does not change task results. -/
theorem c6_executor_interchangeable :
    (∀ ex : Executor,
      (test_flow ex).1.stype = .completed ∧
      (test_flow ex).2.1.stype = .completed ∧
      (test_flow ex).2.2.stype = .completed ∧
      ((test_flow ex).1.data, (test_flow ex).2.1.data,
        (test_flow ex).2.2.data) = ("a", "b", "bc")) ∧
    test_flow .synchronous = test_flow (.localPool false) ∧
    test_flow .synchronous = test_flow (.localPool true) ∧
    test_flow .synchronous = test_flow .dask := by
  refine ⟨?_, rfl, rfl, rfl⟩
  intro ex
  cases ex <;> exact ⟨rfl, rfl, rfl, rfl⟩

/-- After two successful constructions, each task key is the content hash
of the task's own (name, qualified callable name, canonical tag set). -/
theorem task_key_eq {fn : PyObj} {nm d : Option String}
    {tg : Option (List String)} {ckf : Option PyObj} {ce : Option Int}
    {r rd : Int} {t : Task} (h : mkTask fn nm d tg ckf ce r rd = .ok t) :
    t.task_key = stable_hash t.name (to_qualified_name fn) t.tags := by
  obtain ⟨_, _, htags, _, hkey, _, _⟩ := mkTask_ok_fields h
  rw [hkey, htags]

/-- C2: for any two Task constructions with identical name, identical
fully-qualified callable identity, and identical tag set, the computed
task_key values are equal; and changing any one of those three components
yields a different task_key. -/
theorem c2_task_key_identity {fn1 fn2 : PyObj} {nm1 nm2 d1 d2 : Option String}
    {tg1 tg2 : Option (List String)} {ckf1 ckf2 : Option PyObj}
    {ce1 ce2 : Option Int} {r1 r2 rd1 rd2 : Int} {t1 t2 : Task}
    (h1 : mkTask fn1 nm1 d1 tg1 ckf1 ce1 r1 rd1 = .ok t1)
    (h2 : mkTask fn2 nm2 d2 tg2 ckf2 ce2 r2 rd2 = .ok t2) :
    ((t1.name = t2.name ∧ to_qualified_name fn1 = to_qualified_name fn2 ∧
        t1.tags = t2.tags) → t1.task_key = t2.task_key) ∧
    (t1.name ≠ t2.name → t1.task_key ≠ t2.task_key) ∧
    (to_qualified_name fn1 ≠ to_qualified_name fn2 →
      t1.task_key ≠ t2.task_key) ∧
    (t1.tags ≠ t2.tags → t1.task_key ≠ t2.task_key) := by
  have k1 := task_key_eq h1
  have k2 := task_key_eq h2
  refine ⟨?_, ?_, ?_, ?_⟩
  · rintro ⟨hn, hq, ht⟩
    rw [k1, k2, hn, hq, ht]
  · intro hn hk
    apply hn
    rw [k1, k2] at hk
    exact congrArg TaskKey.key_name hk
  · intro hq hk
    apply hq
    rw [k1, k2] at hk
    exact congrArg TaskKey.key_qualname hk
  · intro ht hk
    apply ht
    rw [k1, k2] at hk
    exact congrArg TaskKey.key_tags_repr hk

/-- C2 witness: two constructions with identical components give equal
keys, and otherwise-identical constructions with different tag sets give
different keys. -/
theorem c2_witness :
    (buildTask sample_fn "n" none none none none 0 0).task_key =
      (buildTask sample_fn "n" none none none none 1 2).task_key ∧
    (buildTask sample_fn "n" none none none none 0 0).task_key ≠
      (buildTask sample_fn "n" none (some ["db"]) none none 0 0).task_key :=
  ⟨(@c2_task_key_identity sample_fn sample_fn (some "n") (some "n") none none
      none none none none none none 0 1 0 2
      (buildTask sample_fn "n" none none none none 0 0)
      (buildTask sample_fn "n" none none none none 1 2)
      rfl rfl).1 ⟨rfl, rfl, rfl⟩,
    (@c2_task_key_identity sample_fn sample_fn (some "n") (some "n") none none
      none (some ["db"]) none none none none 0 0 0 0
      (buildTask sample_fn "n" none none none none 0 0)
      (buildTask sample_fn "n" none (some ["db"]) none none 0 0)
      rfl rfl).2.2.2 (by decide)⟩

/-- C3 counterexample: the claim says two Tasks differing only in their
tag sets have equal task_key; the code hashes the sorted constructor tags
into the key, so a task with no tags and the same task with tag "db" get
different keys. -/
theorem c3_counterexample :
    mkTask sample_fn (some "n") none none none none 0 0 =
      .ok (buildTask sample_fn "n" none none none none 0 0) ∧
    mkTask sample_fn (some "n") none (some ["db"]) none none 0 0 =
      .ok (buildTask sample_fn "n" none (some ["db"]) none none 0 0) ∧
    (buildTask sample_fn "n" none none none none 0 0).task_key ≠
      (buildTask sample_fn "n" none (some ["db"]) none none 0 0).task_key :=
  ⟨rfl, rfl, by decide⟩

/-- C3 amended: the tags supplied at construction are recorded as run
metadata and are also included, sorted, in the computation of task_key
(only runtime tags stay out of the key); two Tasks differing only in their
tag sets have different task_key values. -/
theorem c3_tags_in_task_key {fn : PyObj} {nm d : Option String}
    {tg1 tg2 : Option (List String)} {ckf : Option PyObj} {ce : Option Int}
    {r rd : Int} {t1 t2 : Task}
    (h1 : mkTask fn nm d tg1 ckf ce r rd = .ok t1)
    (h2 : mkTask fn nm d tg2 ckf ce r rd = .ok t2) :
    t1.task_key.key_tags_repr = t1.tags ∧
    t2.task_key.key_tags_repr = t2.tags ∧
    (t1.tags ≠ t2.tags → t1.task_key ≠ t2.task_key) := by
  have k1 := task_key_eq h1
  have k2 := task_key_eq h2
  refine ⟨by rw [k1]; rfl, by rw [k2]; rfl, ?_⟩
  intro ht hk
  apply ht
  rw [k1, k2] at hk
  exact congrArg TaskKey.key_tags_repr hk

/-- C3 witness: the tag set is embedded in the key and tag-set changes
change the key. -/
theorem c3_witness :
    (buildTask sample_fn "nn" none (some ["x"]) none none 0 0).task_key ≠
      (buildTask sample_fn "nn" none (some ["y"]) none none 0 0).task_key :=
  (@c3_tags_in_task_key sample_fn (some "nn") none (some ["x"]) (some ["y"])
    none none 0 0
    (buildTask sample_fn "nn" none (some ["x"]) none none 0 0)
    (buildTask sample_fn "nn" none (some ["y"]) none none 0 0)
    rfl rfl).2.2 (by decide)

/-- Each application of `update_dynamic_key` adds exactly one. -/
theorem iterate_update_dynamic_key (t : Task) :
    ∀ k : Nat, (update_dynamic_key^[k] t).dynamic_key = t.dynamic_key + k
  | 0 => rfl
  | k + 1 => by
    rw [Function.iterate_succ_apply']
    have : ∀ s : Task, (update_dynamic_key s).dynamic_key = s.dynamic_key + 1 :=
      fun s => rfl
    rw [this, iterate_update_dynamic_key t k, Nat.add_assoc]

/-- C4: every freshly constructed Task has dynamic_key 0, each call to
`update_dynamic_key` increments it by exactly 1, and N completed calls
observe the strictly increasing sequence 0, 1, ..., N-1 with no gaps and
no resets. -/
theorem c4_dynamic_key_monotone {fn : PyObj} {nm d : Option String}
    {tg : Option (List String)} {ckf : Option PyObj} {ce : Option Int}
    {r rd : Int} {t : Task} (h : mkTask fn nm d tg ckf ce r rd = .ok t) :
    t.dynamic_key = 0 ∧
    (∀ s : Task, (update_dynamic_key s).dynamic_key = s.dynamic_key + 1) ∧
    ∀ N : Nat, (List.range N).map
        (fun i => (update_dynamic_key^[i] t).dynamic_key) = List.range N := by
  obtain ⟨_, _, _, hdyn, _, _, _⟩ := mkTask_ok_fields h
  refine ⟨hdyn, fun s => rfl, ?_⟩
  intro N
  have hmap : ∀ i : Nat, (update_dynamic_key^[i] t).dynamic_key = i := by
    intro i
    rw [iterate_update_dynamic_key, hdyn, Nat.zero_add]
  simp [hmap]

/-- C4 witness: a fresh task starts at 0 and three completed calls observe
0, 1, 2. -/
theorem c4_witness :
    (buildTask sample_fn "n" none none none none 0 0).dynamic_key = 0 ∧
    (List.range 3).map (fun i =>
        (update_dynamic_key^[i]
          (buildTask sample_fn "n" none none none none 0 0)).dynamic_key) =
      List.range 3 :=
  ⟨(@c4_dynamic_key_monotone sample_fn (some "n") none none none none 0 0
      (buildTask sample_fn "n" none none none none 0 0) rfl).1,
    (@c4_dynamic_key_monotone sample_fn (some "n") none none none none 0 0
      (buildTask sample_fn "n" none none none none 0 0) rfl).2.2 3⟩

/-- C7: constructing a Task from a non-callable `fn` fails synchronously
at construction time with a TypeError; no Task object is produced (the
failure is a raised error, not a State, and is not retried). -/
theorem c7_non_callable_rejected (fn : PyObj) (nm d : Option String)
    (tg : Option (List String)) (ckf : Option PyObj) (ce : Option Int)
    (r rd : Int) (h : fn.isCallable = false) :
    mkTask fn nm d tg ckf ce r rd = .error .typeError ∧
    ∀ t : Task, mkTask fn nm d tg ckf ce r rd ≠ .ok t := by
  have herr : mkTask fn nm d tg ckf ce r rd = .error .typeError := by
    unfold mkTask
    rw [if_pos h]
  refine ⟨herr, fun t ht => ?_⟩
  rw [herr] at ht
  exact absurd ht (by simp)

/-- C7 witness: passing the non-callable integer object raises TypeError. -/
theorem c7_witness :
    mkTask non_callable_obj none none none none none 0 0 =
      .error .typeError :=
  (c7_non_callable_rejected non_callable_obj none none none none none 0 0
    rfl).1

/-- C8: a Task invocation whose args/kwargs do not bind against the
wrapped callable's signature raises the binding error synchronously,
before any engine side effect occurs, and never returns a future. -/
theorem c8_bad_binding_no_engine {α : Type} (t : Task) (args : List α)
    (kwargs : List (String × α)) (e : BindError)
    (h : get_call_parameters t.fn args kwargs = .error e) :
    (task_call t args kwargs).1 = [] ∧
    (task_call t args kwargs).2 = .error e ∧
    ∀ f : FutureHandle, (task_call t args kwargs).2 ≠ .ok f := by
  have hcall : task_call t args kwargs = ([], .error e) := by
    unfold task_call
    rw [h]
  refine ⟨by rw [hcall], by rw [hcall], fun f hf => ?_⟩
  rw [hcall] at hf
  exact absurd hf (by simp)

/-- C8 witness: calling the one-parameter task with an unknown keyword
produces the binding error, an empty engine trace and no future. -/
theorem c8_witness :
    (task_call sample_task ([] : List String) [("z", "v")]).1 = [] ∧
    (task_call sample_task ([] : List String) [("z", "v")]).2 =
      .error (.unexpectedKeyword "z") :=
  ⟨(c8_bad_binding_no_engine sample_task [] [("z", "v")]
      (.unexpectedKeyword "z") rfl).1,
    (c8_bad_binding_no_engine sample_task [] [("z", "v")]
      (.unexpectedKeyword "z") rfl).2.1⟩

/-- C9: any two tag iterables denoting the same set of labels (any
ordering, duplicates, or None versus an empty iterable) normalize to the
same set, so otherwise-identical constructions produce equal tags fields
and equal task_key values. -/
theorem c9_tag_normalization {fn : PyObj} {nm d : Option String}
    {tg1 tg2 : Option (List String)} {ckf : Option PyObj} {ce : Option Int}
    {r rd : Int} {t1 t2 : Task}
    (hsame : ∀ x, x ∈ tg1.getD [] ↔ x ∈ tg2.getD [])
    (h1 : mkTask fn nm d tg1 ckf ce r rd = .ok t1)
    (h2 : mkTask fn nm d tg2 ckf ce r rd = .ok t2) :
    t1.tags = t2.tags ∧ t1.task_key = t2.task_key := by
  obtain ⟨_, _, htags1, _, _, htru1, hfal1⟩ := mkTask_ok_fields h1
  obtain ⟨_, _, htags2, _, _, htru2, hfal2⟩ := mkTask_ok_fields h2
  have htags : t1.tags = t2.tags := by
    rw [htags1, htags2, normalize_tags_eq_py_set, normalize_tags_eq_py_set]
    exact py_set_eq_of_mem_iff hsame
  have hname : t1.name = t2.name := by
    by_cases hnm : truthy_str nm = true
    · rw [htru1 hnm, htru2 hnm]
    · have hf : truthy_str nm = false := by
        revert hnm
        cases truthy_str nm <;> simp
      have e1 := hfal1 hf
      have e2 := hfal2 hf
      rw [e1, Option.some.injEq] at e2
      exact e2
  refine ⟨htags, ?_⟩
  rw [task_key_eq h1, task_key_eq h2, htags, hname]

/-- C9 witness: the iterables ["a", "a"] and ["a"] denote the same label
set and produce equal tags and equal keys. -/
theorem c9_witness :
    (buildTask sample_fn "my_fn" none (some ["a", "a"]) none none 0 0).tags =
      (buildTask sample_fn "my_fn" none (some ["a"]) none none 0 0).tags ∧
    (buildTask sample_fn "my_fn" none (some ["a", "a"]) none none 0 0).task_key =
      (buildTask sample_fn "my_fn" none (some ["a"]) none none 0 0).task_key :=
  @c9_tag_normalization sample_fn (some "my_fn") none (some ["a", "a"])
    (some ["a"]) none none 0 0
    (buildTask sample_fn "my_fn" none (some ["a", "a"]) none none 0 0)
    (buildTask sample_fn "my_fn" none (some ["a"]) none none 0 0)
    (by intro x; simp) rfl rfl

/-- C10: a Task constructed without an explicit name (None or empty
string) defaults its name from `fn.__name__`, so such a construction
succeeds exactly for callables carrying a `__name__` attribute; a callable
instance lacking `__name__` fails with AttributeError even though it is
callable, and an explicit non-empty name avoids the dependency. -/
theorem c10_default_name_requires_name_attr (fn : PyObj)
    (nm d : Option String) (tg : Option (List String)) (ckf : Option PyObj)
    (ce : Option Int) (r rd : Int) (hcall : fn.isCallable = true) :
    ((nm = none ∨ nm = some "") → fn.name_attr = none →
      mkTask fn nm d tg ckf ce r rd = .error .attributeError) ∧
    ((nm = none ∨ nm = some "") → ∀ n, fn.name_attr = some n →
      ∃ t : Task, mkTask fn nm d tg ckf ce r rd = .ok t ∧ t.name = n) ∧
    (∀ s, nm = some s → s ≠ "" →
      ∃ t : Task, mkTask fn nm d tg ckf ce r rd = .ok t ∧ t.name = s) := by
  have falsy : (nm = none ∨ nm = some "") → truthy_str nm = false := by
    rintro (hn | hn) <;> rw [hn] <;> rfl
  refine ⟨?_, ?_, ?_⟩
  · intro hnm hattr
    exact mkTask_attr_error d tg ckf ce r rd hcall (falsy hnm) hattr
  · intro hnm n hattr
    exact mkTask_ok_of_name_attr d tg ckf ce r rd hcall (falsy hnm) hattr
  · intro s hnm hs
    have htruthy : truthy_str nm = true := by
      rw [hnm]
      unfold truthy_str
      rw [Bool.not_eq_true']
      exact Bool.eq_false_iff.2 fun hh => hs ((String.isEmpty_iff s).1 hh)
    obtain ⟨t, ht, hname⟩ :=
      mkTask_ok_of_truthy_name d tg ckf ce r rd hcall htruthy
    refine ⟨t, ht, ?_⟩
    rw [hname, hnm]
    rfl

/-- C10 witness: a callable instance without `__name__` fails construction
when the name is omitted. -/
theorem c10_witness :
    mkTask callable_instance none none none none none 0 0 =
      .error .attributeError :=
  (c10_default_name_requires_name_attr callable_instance none none none
    none none 0 0 rfl).1 (Or.inl rfl) rfl

end Prefect
